import Mathlib

/-!
Verification of the Energy Consumption Prediction app
(`EnergyConsumptionApp.py`), a single-page form that assembles a feature
record from slider and date/time inputs, projects it onto a stored feature
order, and feeds it to two regression models.

The embedding below translates, from the source:
  * the feature record assembled on form submission (lines 109-131),
  * the column projection `input_data[[col for col in self.feature_names
    if col in input_data.columns]]` (line 133),
  * `load_resources` (lines 77-84) with its single try/except,
  * the submission render pipeline (lines 109-182) including the
    `try ... except ValueError` around the two `predict` calls.

Numeric values are modelled as `ℚ` (the app only moves the numbers around;
no float rounding is involved in any claim). Python exceptions are modelled
by `PyExc` and fallible steps return `Except PyExc _`; an `Except.error`
escaping `runSubmission` models an exception propagating uncaught out of
the render of a submission.
-/

namespace EnergyApp

/-- A FeatureRecord: a flat mapping from feature name to numeric value,
modelled as an association list in column (insertion) order, as a pandas
single-row DataFrame built from a dict keeps its columns in insertion
order. -/
abbrev FeatureRecord := List (String × ℚ)

/-- Line 133 of the source:
`input_data = input_data[[col for col in self.feature_names if col in input_data.columns]]`.
For each name of `order` (the stored feature names) that is a column of the
record, keep that column (with its value) in the order dictated by `order`;
names absent from the record are skipped by the `if col in input_data.columns`
guard, and record columns not named by `order` are dropped. -/
def project (record : FeatureRecord) (order : List String) : FeatureRecord :=
  order.filterMap fun k => (List.lookup k record).map fun v => (k, v)

/-- Days since 1970-01-01 of a proleptic-Gregorian date (the civil-calendar
day count used by `pandas.Timestamp`, which line 116 of the source queries
for the weekday). -/
def daysFromCivil (y m d : Int) : Int :=
  let y2 := if m ≤ 2 then y - 1 else y
  let era := (if y2 ≥ 0 then y2 else y2 - 399) / 400
  let yoe := y2 - era * 400
  let mp := (m + 9) % 12
  let doy := (153 * mp + 2) / 5 + d - 1
  let doe := yoe * 365 + yoe / 4 - yoe / 100 + doy
  era * 146097 + doe - 719468

/-- `pandas.Timestamp.weekday()` as called on line 116: 0 = Monday ...
6 = Sunday. 1970-01-01 (day 0 of the count) was a Thursday, weekday 3. -/
def weekdayOf (y m d : Int) : Int :=
  (daysFromCivil y m d + 3) % 7

/-- The raw form inputs of lines 99-105: five sliders plus the date and
time pickers (whose fields lines 110-115 copy into the record). -/
structure FormInput where
  voltage : ℚ
  global_intensity : ℚ
  sub_metering_1 : ℚ
  sub_metering_2 : ℚ
  sub_metering_3 : ℚ
  year : Int
  month : Int
  day : Int
  hour : Int
  minute : Int

/-- The slider bounds declared on lines 99-103: voltage in [220, 255],
global intensity in [0, 20], each sub-metering value in [0, 50]. -/
def ValidSliders (i : FormInput) : Prop :=
  220 ≤ i.voltage ∧ i.voltage ≤ 255 ∧
  0 ≤ i.global_intensity ∧ i.global_intensity ≤ 20 ∧
  0 ≤ i.sub_metering_1 ∧ i.sub_metering_1 ≤ 50 ∧
  0 ≤ i.sub_metering_2 ∧ i.sub_metering_2 ≤ 50 ∧
  0 ≤ i.sub_metering_3 ∧ i.sub_metering_3 ≤ 50

/-- Any date the `st.date_input` calendar widget can yield: a real
calendar date (positive year, month 1-12, day 1-31). -/
def ValidDate (i : FormInput) : Prop :=
  1 ≤ i.year ∧ 1 ≤ i.month ∧ i.month ≤ 12 ∧ 1 ≤ i.day ∧ i.day ≤ 31

/-- Any time the `st.time_input` widget can yield. -/
def ValidTime (i : FormInput) : Prop :=
  0 ≤ i.hour ∧ i.hour ≤ 23 ∧ 0 ≤ i.minute ∧ i.minute ≤ 59

/-- Lines 109-131: combine date and time, read the calendar fields off the
timestamp, and build the single-row DataFrame with its twelve columns in
the dict's insertion order. `Global_reactive_power` is the constant `0.0`
of line 119. -/
def assemble (i : FormInput) : FeatureRecord :=
  [("Global_reactive_power", 0),
   ("Voltage", i.voltage),
   ("Global_intensity", i.global_intensity),
   ("Sub_metering_1", i.sub_metering_1),
   ("Sub_metering_2", i.sub_metering_2),
   ("Sub_metering_3", i.sub_metering_3),
   ("Year", (i.year : ℚ)),
   ("Month", (i.month : ℚ)),
   ("Day", (i.day : ℚ)),
   ("Hour", (i.hour : ℚ)),
   ("Minute", (i.minute : ℚ)),
   ("Weekday", (weekdayOf i.year i.month i.day : ℚ))]

/-- The form-default inputs of lines 99-105: voltage 240.0, global
intensity 4.63, sub-metering 1.12 / 1.30 / 6.46, date 2024-11-28,
time 12:00. -/
def defaultFormInput : FormInput :=
  ⟨240, 463/100, 112/100, 13/10, 646/100, 2024, 11, 28, 12, 0⟩

/-- The record of the spec's projection example:
`{Voltage: 240.0, Global_intensity: 4.63, Extra: 1.0}`. -/
def exampleRecord : FeatureRecord :=
  [("Voltage", 240), ("Global_intensity", 463/100), ("Extra", 1)]

theorem lookup_project (record : FeatureRecord) (order : List String) (k : String) :
    List.lookup k (project record order)
      = if k ∈ order then List.lookup k record else none := by
  induction order with
  | nil => simp [project]
  | cons a rest ih =>
    cases h : List.lookup a record with
    | none =>
      have hstep : project record (a :: rest) = project record rest := by
        simp [project, List.filterMap_cons, h]
      rw [hstep, ih]
      by_cases hka : k = a
      · subst hka
        simp [List.mem_cons, h]
      · simp [List.mem_cons, hka]
    | some v =>
      have hstep : project record (a :: rest) = (a, v) :: project record rest := by
        simp [project, List.filterMap_cons, h]
      rw [hstep]
      by_cases hka : k = a
      · subst hka
        simp [List.lookup, h]
      · simp [List.lookup, beq_false_of_ne hka, ih, List.mem_cons, hka]

theorem project_congr (r₁ r₂ : FeatureRecord) (order : List String)
    (h : ∀ k ∈ order, List.lookup k r₁ = List.lookup k r₂) :
    project r₁ order = project r₂ order := by
  induction order with
  | nil => rfl
  | cons a rest ih =>
    have ha := h a (List.mem_cons_self a rest)
    have htail : project r₁ rest = project r₂ rest :=
      ih fun k hk => h k (List.mem_cons_of_mem a hk)
    show (a :: rest).filterMap _ = (a :: rest).filterMap _
    rw [List.filterMap_cons, List.filterMap_cons, ha]
    cases List.lookup a r₂ with
    | none => exact htail
    | some v => exact congrArg _ htail

theorem project_eq_filter_map (record : FeatureRecord) (order : List String) :
    project record order
      = (order.filter fun k => (List.lookup k record).isSome).map
          fun k => (k, (List.lookup k record).getD 0) := by
  induction order with
  | nil => rfl
  | cons a rest ih =>
    cases h : List.lookup a record with
    | none =>
      simp only [project, List.filterMap_cons, List.filter_cons, h, Option.map_none',
        Option.isSome_none, Bool.false_eq_true, if_false] at ih ⊢
      exact ih
    | some v =>
      simp only [project, List.filterMap_cons, List.filter_cons, h, Option.map_some',
        Option.isSome_some, if_true, List.map_cons, Option.getD_some] at ih ⊢
      exact ih ▸ rfl

/-- Claim C1: the projection step keeps exactly the keys present in both
the record and the feature order, in the order dictated by the feature
order, with the record's values; record keys absent from the order are
dropped and order names absent from the record are skipped without
failing (yielding a narrower vector). On the spec's example, FeatureOrder
`[Voltage, Global_intensity]` applied to
`{Voltage: 240.0, Global_intensity: 4.63, Extra: 1.0}` yields
`[240.0, 4.63]` in that order, and an order naming a missing key simply
yields the narrower vector. -/
theorem c1_projection :
    (∀ (record : FeatureRecord) (order : List String),
        project record order
          = (order.filter fun k => (List.lookup k record).isSome).map
              fun k => (k, (List.lookup k record).getD 0))
    ∧ project exampleRecord ["Voltage", "Global_intensity"]
        = [("Voltage", 240), ("Global_intensity", 463/100)]
    ∧ project exampleRecord ["Voltage", "Global_intensity", "Missing"]
        = [("Voltage", 240), ("Global_intensity", 463/100)] :=
  ⟨project_eq_filter_map, by rfl, by rfl⟩

/-- Claim C3: projection is idempotent — projecting an already-projected
record a second time through the same feature order yields the identical
record (same keys, same order, same values). -/
theorem c3_projection_idempotent (record : FeatureRecord) (order : List String) :
    project (project record order) order = project record order :=
  project_congr _ _ _ fun k hk => by rw [lookup_project, if_pos hk]

/-- Claim C2: for every input within the form's valid slider ranges and
any date/time, the assembled record has exactly the twelve keys
Global_reactive_power, Voltage, Global_intensity, Sub_metering_1,
Sub_metering_2, Sub_metering_3, Year, Month, Day, Hour, Minute, Weekday,
and no others. -/
theorem c2_assemble_keys (i : FormInput) (_hs : ValidSliders i) :
    (assemble i).map Prod.fst
      = ["Global_reactive_power", "Voltage", "Global_intensity",
         "Sub_metering_1", "Sub_metering_2", "Sub_metering_3",
         "Year", "Month", "Day", "Hour", "Minute", "Weekday"] := rfl

/-- Witness for C2 at the form defaults. -/
theorem c2_assemble_keys_witness :
    ValidSliders defaultFormInput ∧
    (assemble defaultFormInput).map Prod.fst
      = ["Global_reactive_power", "Voltage", "Global_intensity",
         "Sub_metering_1", "Sub_metering_2", "Sub_metering_3",
         "Year", "Month", "Day", "Hour", "Minute", "Weekday"] :=
  ⟨by constructor <;> norm_num [defaultFormInput],
   c2_assemble_keys defaultFormInput
     (by constructor <;> norm_num [defaultFormInput])⟩

/-- Claim C4: for voltage 240.0, global intensity 4.63, sub-metering
(1.12, 1.30, 6.46), date 2024-11-28 and time 12:00, the assembled record
has Year 2024, Month 11, Day 28, Hour 12, Minute 0, Weekday 3 (Thursday)
and Global_reactive_power 0.0. -/
theorem c4_default_scenario :
    List.lookup "Year" (assemble defaultFormInput) = some 2024 ∧
    List.lookup "Month" (assemble defaultFormInput) = some 11 ∧
    List.lookup "Day" (assemble defaultFormInput) = some 28 ∧
    List.lookup "Hour" (assemble defaultFormInput) = some 12 ∧
    List.lookup "Minute" (assemble defaultFormInput) = some 0 ∧
    List.lookup "Weekday" (assemble defaultFormInput) = some 3 ∧
    List.lookup "Global_reactive_power" (assemble defaultFormInput) = some 0 := by
  refine ⟨?_, ?_, ?_, ?_, ?_, ?_, ?_⟩ <;> decide

/-- Claim C5: for every selectable date and time, the calendar fields the
assembler derives satisfy: the stored weekday is an integer in [0, 6]
(with the anchors fixing the ISO convention: 2024-11-25, a Monday, maps
to 0 and 2024-12-01, a Sunday, maps to 6), the stored month is the
selected month in [1, 12], the hour in [0, 23] and the minute in
[0, 59]. -/
theorem c5_calendar_ranges (i : FormInput) (hd : ValidDate i) (ht : ValidTime i) :
    (∃ w : ℤ, List.lookup "Weekday" (assemble i) = some (w : ℚ) ∧ 0 ≤ w ∧ w ≤ 6) ∧
    (List.lookup "Month" (assemble i) = some (i.month : ℚ) ∧ 1 ≤ i.month ∧ i.month ≤ 12) ∧
    (List.lookup "Hour" (assemble i) = some (i.hour : ℚ) ∧ 0 ≤ i.hour ∧ i.hour ≤ 23) ∧
    (List.lookup "Minute" (assemble i) = some (i.minute : ℚ) ∧ 0 ≤ i.minute ∧ i.minute ≤ 59) ∧
    weekdayOf 2024 11 25 = 0 ∧ weekdayOf 2024 12 1 = 6 := by
  obtain ⟨-, hm1, hm2, -, -⟩ := hd
  obtain ⟨hh1, hh2, hmi1, hmi2⟩ := ht
  refine ⟨⟨weekdayOf i.year i.month i.day, rfl, ?_, ?_⟩,
    ⟨rfl, hm1, hm2⟩, ⟨rfl, hh1, hh2⟩, ⟨rfl, hmi1, hmi2⟩, by decide, by decide⟩
  · exact Int.emod_nonneg _ (by norm_num)
  · have := Int.emod_lt_of_pos (daysFromCivil i.year i.month i.day + 3)
      (show (0 : ℤ) < 7 by norm_num)
    unfold weekdayOf
    omega

/-- Witness for C5 at the form defaults. -/
theorem c5_calendar_ranges_witness :
    ValidDate defaultFormInput ∧ ValidTime defaultFormInput ∧
    ((∃ w : ℤ, List.lookup "Weekday" (assemble defaultFormInput) = some (w : ℚ)
        ∧ 0 ≤ w ∧ w ≤ 6) ∧
     (List.lookup "Month" (assemble defaultFormInput)
        = some (defaultFormInput.month : ℚ)
        ∧ 1 ≤ defaultFormInput.month ∧ defaultFormInput.month ≤ 12) ∧
     (List.lookup "Hour" (assemble defaultFormInput)
        = some (defaultFormInput.hour : ℚ)
        ∧ 0 ≤ defaultFormInput.hour ∧ defaultFormInput.hour ≤ 23) ∧
     (List.lookup "Minute" (assemble defaultFormInput)
        = some (defaultFormInput.minute : ℚ)
        ∧ 0 ≤ defaultFormInput.minute ∧ defaultFormInput.minute ≤ 59) ∧
     weekdayOf 2024 11 25 = 0 ∧ weekdayOf 2024 12 1 = 6) :=
  ⟨by norm_num [ValidDate, defaultFormInput], by norm_num [ValidTime, defaultFormInput],
   c5_calendar_ranges defaultFormInput (by norm_num [ValidDate, defaultFormInput])
     (by norm_num [ValidTime, defaultFormInput])⟩

/-- Claim C6: for every input, the assembler stores the fixed constant 0.0
as Global_reactive_power; the value never depends on the user's input. -/
theorem c6_reactive_power_constant (i : FormInput) :
    List.lookup "Global_reactive_power" (assemble i) = some 0 := rfl

/-- The Python exceptions relevant to the app: `ValueError` (the only type
caught on line 174), `AttributeError` (raised when an instance attribute
that `load_resources` never assigned is read), and any other exception
class. -/
inductive PyExc where
  | valueError (msg : String)
  | attributeError (attr : String)
  | otherError (msg : String)
deriving DecidableEq

/-- A loaded model: opaque `predict` taking the projected single-row frame
and returning a scalar, or raising (lines 143-144 call it and take
element 0 of the result, which we fold into the scalar). -/
abbrev ModelFun := FeatureRecord → Except PyExc ℚ

/-- The instance attributes `load_resources` may or may not have assigned;
`none` models an attribute that was never set, so that reading it raises
`AttributeError`. -/
structure AppState where
  linear_model : Option ModelFun
  ridge_model : Option ModelFun
  feature_names : Option (List String)

/-- A sidebar notice: `st.sidebar.success` or `st.sidebar.error`. -/
inductive SidebarMsg where
  | success (msg : String)
  | error (msg : String)

/-- Reading `self.attr`: yields the value when the attribute was assigned,
raises `AttributeError` otherwise. -/
def readAttr {α : Type} (field : Option α) (attr : String) : Except PyExc α :=
  match field with
  | some v => Except.ok v
  | none => Except.error (PyExc.attributeError attr)

/-- `load_resources` (lines 77-84): the three `joblib.load` calls run in
order inside one try; the first failure aborts the remaining assignments
and the except arm posts a sidebar error (the function returns normally
either way, and is never called again). Each argument is the outcome of
the corresponding `joblib.load`. -/
def load_resources (lin rid : Except String ModelFun)
    (names : Except String (List String)) : AppState × SidebarMsg :=
  match lin with
  | Except.error e => (⟨none, none, none⟩, SidebarMsg.error ("Error loading resources: " ++ e))
  | Except.ok lm =>
    match rid with
    | Except.error e => (⟨some lm, none, none⟩, SidebarMsg.error ("Error loading resources: " ++ e))
    | Except.ok rm =>
      match names with
      | Except.error e =>
        (⟨some lm, some rm, none⟩, SidebarMsg.error ("Error loading resources: " ++ e))
      | Except.ok ns => (⟨some lm, some rm, some ns⟩, SidebarMsg.success "Resources loaded successfully!")

/-- One rendered element of the submission branch, in page order. -/
inductive RenderEvent where
  | heatmapChart (data : FeatureRecord)
  | predictionCard
  | donutLinear (pred : ℚ)
  | donutRidge (pred : ℚ)
  | resultsHeader
  | textLinear (pred : ℚ)
  | textRidge (pred : ℚ)
  | errorMessage (msg : String)
  | divider
  | disclaimer

/-- The body of the `try` block of lines 142-172: read `self.linear_model`
and call its predict, then read `self.ridge_model` and call its predict,
then render the two donut charts and the text results. Any raise aborts
the rest of the block. -/
def predictionTry (s : AppState) (input_data : FeatureRecord) :
    Except PyExc (List RenderEvent) :=
  match readAttr s.linear_model "linear_model" with
  | Except.error e => Except.error e
  | Except.ok lm =>
    match lm input_data with
    | Except.error e => Except.error e
    | Except.ok linear_pred =>
      match readAttr s.ridge_model "ridge_model" with
      | Except.error e => Except.error e
      | Except.ok rm =>
        match rm input_data with
        | Except.error e => Except.error e
        | Except.ok ridge_pred =>
          Except.ok [RenderEvent.donutLinear linear_pred, RenderEvent.donutRidge ridge_pred,
            RenderEvent.resultsHeader, RenderEvent.textLinear linear_pred,
            RenderEvent.textRidge ridge_pred]

/-- The submission branch of `run` (lines 109-182): assemble the record,
project it onto `self.feature_names` (line 133, read OUTSIDE the try),
render the heatmap and the prediction card, run the try block with its
`except ValueError` arm (line 174) posting an inline error, and finish
with the divider and the disclaimer. An `Except.error` result models an
exception propagating uncaught out of the render of the submission. -/
def runSubmission (s : AppState) (i : FormInput) : Except PyExc (List RenderEvent) :=
  match readAttr s.feature_names "feature_names" with
  | Except.error e => Except.error e
  | Except.ok names =>
    let input_data := project (assemble i) names
    let pre := [RenderEvent.heatmapChart input_data, RenderEvent.predictionCard]
    let tail := [RenderEvent.divider, RenderEvent.disclaimer]
    match predictionTry s input_data with
    | Except.ok evs => Except.ok (pre ++ evs ++ tail)
    | Except.error (PyExc.valueError e) =>
      Except.ok (pre ++ [RenderEvent.errorMessage ("Prediction error: " ++ e)] ++ tail)
    | Except.error e => Except.error e

/-- A feature order used by the concrete error-handling scenarios. -/
def sharedNames : List String := ["Voltage", "Global_intensity"]

/-- A model whose predict raises `ValueError` on every input, as sklearn
does on a shape- or dtype-incompatible frame. -/
def failingLinear : ModelFun := fun _ => Except.error (PyExc.valueError "bad shape")

/-- A model whose predict always succeeds. -/
def okRidge : ModelFun := fun _ => Except.ok 5

/-- A fully loaded state whose linear model raises on every input. -/
def stateFailingLinear : AppState := ⟨some failingLinear, some okRidge, some sharedNames⟩

/-- A state where the feature names loaded but neither model attribute was
ever assigned. -/
def stateNoModels : AppState := ⟨none, none, some sharedNames⟩

/-- Claim C7: when a model's predict raises a `ValueError` (the
PredictionError of the spec) on the projected vector, the submission
render completes normally (`Except.ok`): the error is surfaced as a
single inline error message in place of the prediction output, no second
attempt at the failed prediction appears, and the sections after the
prediction section (divider and disclaimer) are still rendered. -/
theorem c7_prediction_error_surfaced (s : AppState) (i : FormInput) (m : String)
    (lm rm : ModelFun) (names : List String)
    (hn : s.feature_names = some names)
    (hl : s.linear_model = some lm)
    (hr : s.ridge_model = some rm)
    (hraise : lm (project (assemble i) names) = Except.error (PyExc.valueError m)
      ∨ ∃ p, lm (project (assemble i) names) = Except.ok p
          ∧ rm (project (assemble i) names) = Except.error (PyExc.valueError m)) :
    runSubmission s i
      = Except.ok [RenderEvent.heatmapChart (project (assemble i) names),
          RenderEvent.predictionCard,
          RenderEvent.errorMessage ("Prediction error: " ++ m),
          RenderEvent.divider, RenderEvent.disclaimer] := by
  rcases hraise with hbad | ⟨p, hok, hbad⟩
  · simp [runSubmission, predictionTry, readAttr, hn, hl, hbad]
  · simp [runSubmission, predictionTry, readAttr, hn, hl, hr, hok, hbad]

/-- Witness for C7: a loaded state whose linear model always raises
`ValueError`. -/
theorem c7_prediction_error_surfaced_witness :
    runSubmission stateFailingLinear defaultFormInput
      = Except.ok [RenderEvent.heatmapChart (project (assemble defaultFormInput) sharedNames),
          RenderEvent.predictionCard,
          RenderEvent.errorMessage ("Prediction error: " ++ "bad shape"),
          RenderEvent.divider, RenderEvent.disclaimer] :=
  c7_prediction_error_surfaced stateFailingLinear defaultFormInput "bad shape"
    failingLinear okRidge sharedNames rfl rfl rfl (Or.inl rfl)

/-- Claim C9: the `except ValueError` arm of lines 142-175 is the only
handler, so any exception of another class raised while predicting
propagates uncaught out of the render of the submission. -/
theorem c9_other_exceptions_propagate (s : AppState) (i : FormInput)
    (names : List String) (e : PyExc)
    (hn : s.feature_names = some names)
    (hp : predictionTry s (project (assemble i) names) = Except.error e)
    (hv : ∀ m, e ≠ PyExc.valueError m) :
    runSubmission s i = Except.error e := by
  cases e with
  | valueError m => exact absurd rfl (hv m)
  | attributeError a => simp [runSubmission, readAttr, hn, hp]
  | otherError m => simp [runSubmission, readAttr, hn, hp]

/-- Witness for C9: with the model attributes never assigned (failed
load), predicting raises `AttributeError`, which escapes. -/
theorem c9_other_exceptions_propagate_witness :
    runSubmission stateNoModels defaultFormInput
      = Except.error (PyExc.attributeError "linear_model") :=
  c9_other_exceptions_propagate stateNoModels defaultFormInput sharedNames
    (PyExc.attributeError "linear_model") rfl rfl (fun _ h => PyExc.noConfusion h)

/-- Counterexample to C8 as stated: when the first `joblib.load` fails,
the failure is indeed reported as a sidebar error, but a subsequent form
submission does NOT keep the session usable — reading the never-assigned
`self.feature_names` on line 133 raises an `AttributeError` that no
handler catches, so the submission render crashes. -/
theorem c8_counterexample :
    ((load_resources (Except.error "No such file: linear_model.pkl")
        (Except.error "unused") (Except.error "unused")).2
      = SidebarMsg.error ("Error loading resources: " ++ "No such file: linear_model.pkl"))
    ∧ runSubmission (load_resources (Except.error "No such file: linear_model.pkl")
        (Except.error "unused") (Except.error "unused")).1 defaultFormInput
      = Except.error (PyExc.attributeError "feature_names") :=
  ⟨rfl, rfl⟩

/-- Claim C8 as amended: if loading any of the three artifacts fails at
startup, the failure is surfaced as a non-fatal sidebar notice
(`load_resources` returns normally and is never called again, so the
load is not retried); and since the three loads run in order inside one
try, `self.feature_names` — the last assignment — is never assigned in
any failure case, so a subsequent form submission raises an uncaught
`AttributeError` reading it on line 133 (outside the try), crashing that
render instead of continuing without predictions. -/
theorem c8_load_failure_behaviour (lin rid : Except String ModelFun)
    (names : Except String (List String)) (i : FormInput)
    (hfail : (∃ e, lin = Except.error e) ∨ (∃ e, rid = Except.error e)
      ∨ (∃ e, names = Except.error e)) :
    (∃ e, (load_resources lin rid names).2
        = SidebarMsg.error ("Error loading resources: " ++ e))
    ∧ (load_resources lin rid names).1.feature_names = none
    ∧ runSubmission (load_resources lin rid names).1 i
        = Except.error (PyExc.attributeError "feature_names") := by
  cases lin with
  | error e => exact ⟨⟨e, rfl⟩, rfl, rfl⟩
  | ok lm =>
    cases rid with
    | error e => exact ⟨⟨e, rfl⟩, rfl, rfl⟩
    | ok rm =>
      cases names with
      | error e => exact ⟨⟨e, rfl⟩, rfl, rfl⟩
      | ok ns => rcases hfail with ⟨e, he⟩ | ⟨e, he⟩ | ⟨e, he⟩ <;> exact Except.noConfusion he

/-- Witness for amended C8: the middle (ridge) load fails while the other
two loads would have succeeded; the linear model is assigned, yet the
submission still crashes on the unassigned `feature_names`. -/
theorem c8_load_failure_behaviour_witness :
    (∃ e, (load_resources (Except.ok okRidge)
        (Except.error "No such file: ridge_model.pkl") (Except.ok sharedNames)).2
        = SidebarMsg.error ("Error loading resources: " ++ e))
    ∧ (load_resources (Except.ok okRidge)
        (Except.error "No such file: ridge_model.pkl") (Except.ok sharedNames)).1.feature_names
        = none
    ∧ runSubmission (load_resources (Except.ok okRidge)
        (Except.error "No such file: ridge_model.pkl") (Except.ok sharedNames)).1
        defaultFormInput
        = Except.error (PyExc.attributeError "feature_names") :=
  c8_load_failure_behaviour (Except.ok okRidge)
    (Except.error "No such file: ridge_model.pkl") (Except.ok sharedNames)
    defaultFormInput (Or.inr (Or.inl ⟨"No such file: ridge_model.pkl", rfl⟩))

/-- Claim C10: the submission pipeline is deterministic — with the loaded
artifacts fixed, identical form inputs give the identical assembled
record, identical projected vector, and an identical render trace (which
contains both model predictions in its donut and text events). -/
theorem c10_deterministic (s : AppState) (names : List String)
    (i₁ i₂ : FormInput) (h : i₁ = i₂) :
    assemble i₁ = assemble i₂
    ∧ project (assemble i₁) names = project (assemble i₂) names
    ∧ runSubmission s i₁ = runSubmission s i₂ := by
  subst h
  exact ⟨rfl, rfl, rfl⟩

/-- Witness for C10 at the form defaults. -/
theorem c10_deterministic_witness :
    assemble defaultFormInput = assemble defaultFormInput
    ∧ project (assemble defaultFormInput) sharedNames
        = project (assemble defaultFormInput) sharedNames
    ∧ runSubmission stateFailingLinear defaultFormInput
        = runSubmission stateFailingLinear defaultFormInput :=
  c10_deterministic stateFailingLinear sharedNames defaultFormInput defaultFormInput rfl

end EnergyApp
